import Mathlib

/-!
Shallow embedding of the KGHS ESP32 greenhouse controller firmware
(`src/KGHS-Final-Edits.ino`). Floating-point sensor values and thresholds
are modelled as rationals; ADC raw values as integers; the periodic tasks
as pure step functions on the shared state.
-/

namespace KGHS

/-- Threshold configuration, `struct Config` with its field defaults. -/
structure Config where
  temp_high : ℚ
  temp_low : ℚ
  hum_low : ℚ
  hum_high : ℚ
  moisture_dry : ℚ
  moisture_target : ℚ
  adc_wet : Int
  adc_dry : Int
deriving Repr, DecidableEq

/-- Default member initialisers of `struct Config`. -/
def defaultConfig : Config :=
  { temp_high := 22, temp_low := 20, hum_low := 45, hum_high := 50,
    moisture_dry := 45, moisture_target := 60, adc_wet := 1500, adc_dry := 4095 }

/-- Shared system state, `struct State`. -/
structure State where
  temp : ℚ
  humidity : ℚ
  moisture : ℚ
  pump_on : Bool
  fan_on : Bool
  lights_on : Bool
  humidifier_is_on : Bool
deriving Repr, DecidableEq

/-- Default member initialisers of `struct State` (boot state: all actuators off). -/
def bootState : State :=
  { temp := 0, humidity := 0, moisture := 0,
    pump_on := false, fan_on := false, lights_on := false, humidifier_is_on := false }

/-- `mapMoisture(int raw)`: sentinel on `raw <= 0` or equal calibration points,
otherwise the linear map `(raw - adc_dry) * 100 / (adc_wet - adc_dry)` clamped
first above at 100, then below at 0. -/
def mapMoisture (cfg : Config) (raw : Int) : ℚ :=
  if raw ≤ 0 then -999
  else
    let dryValue := cfg.adc_dry
    let wetValue := cfg.adc_wet
    if dryValue = wetValue then -999
    else
      let percentage : ℚ := ((raw - dryValue : Int) : ℚ) * 100 / ((wetValue - dryValue : Int) : ℚ)
      let p1 := if percentage > 100 then 100 else percentage
      if p1 < 0 then 0 else p1

/-- One iteration of the `controlTask` loop body: updates the actuator fields of
the shared state from the current readings and thresholds, section by section
(temperature, humidity, soil) exactly as in the source. -/
def controlStep (cfg : Config) (s : State) : State :=
  let s1 :=
    if s.temp > cfg.temp_high then { s with fan_on := true, lights_on := false }
    else if s.temp < cfg.temp_low then { s with lights_on := true, fan_on := false }
    else { s with fan_on := false, lights_on := false }
  let s2 :=
    if s1.humidity < cfg.hum_low then { s1 with humidifier_is_on := true }
    else if s1.humidity > cfg.hum_high then { s1 with humidifier_is_on := false }
    else s1
  let s3 :=
    if s2.moisture < cfg.moisture_dry then { s2 with pump_on := true }
    else if s2.moisture > cfg.moisture_target then { s2 with pump_on := false }
    else s2
  s3

/-- One sensor-task write into the shared state: the three reading fields. -/
structure Readings where
  t : ℚ
  h : ℚ
  m : ℚ
deriving Repr, DecidableEq

/-- The sensor task's locked update of the reading fields. -/
def setReadings (s : State) (r : Readings) : State :=
  { s with temp := r.t, humidity := r.h, moisture := r.m }

/-- One full control cycle: sensor readings become visible, then the control
task runs once. -/
def cycle (cfg : Config) (r : Readings) (s : State) : State :=
  controlStep cfg (setReadings s r)

/-- A sequence of control cycles with arbitrary per-cycle thresholds and readings. -/
def runCycles (inputs : List (Config × Readings)) (s : State) : State :=
  inputs.foldl (fun st p => cycle p.1 p.2 st) s

/-- `sensorTask` soil-moisture path: sum of the raw ADC samples, C integer
division by 10 (truncating), then `mapMoisture`. -/
def avgRaw (samples : List Int) : Int :=
  (samples.foldl (· + ·) 0).tdiv 10

/-- The moisture value the sensor task stores for a cycle's ADC samples. -/
def sensorMoisture (cfg : Config) (samples : List Int) : ℚ :=
  mapMoisture cfg (avgRaw samples)

/-- Clamp written the way the spec states it, to compare against the source's
two-sided conditional clamp. -/
def specClamp (x lo hi : ℚ) : ℚ :=
  max lo (min hi x)

/-- Remote configuration snapshot as pulled from `/greenhouse/config`: each
field is present (`some`) or absent/failed (`none`). -/
structure RemoteDelta where
  temp_high : Option ℚ
  temp_low : Option ℚ
  hum_low : Option ℚ
  hum_high : Option ℚ
  moisture_dry : Option ℚ
  moisture_target : Option ℚ
deriving Repr, DecidableEq

/-- The `READ CONFIG` block of `firebaseTask` in `KGHS-Final-Edits.ino`:
for `temp_high` and `temp_low`, if the field is present and differs from the
current value it is stored and `changed` is set; one `saveConfig()` call runs
iff `changed`. Returns the new configuration and the number of save calls. -/
def applyRemoteDelta (cfg : Config) (d : RemoteDelta) : Config × Nat :=
  let step1 : Config × Bool :=
    match d.temp_high with
    | some v => if v ≠ cfg.temp_high then ({ cfg with temp_high := v }, true) else (cfg, false)
    | none => (cfg, false)
  let cfg1 := step1.1
  let step2 : Config × Bool :=
    match d.temp_low with
    | some v => if v ≠ cfg1.temp_low then ({ cfg1 with temp_low := v }, true) else (cfg1, false)
    | none => (cfg1, false)
  (step2.1, if step1.2 || step2.2 then 1 else 0)

/-- Character-list matcher: does the list start with the pattern? -/
def startsWith : List Char → List Char → Bool
  | [], _ => true
  | _ :: _, [] => false
  | p :: ps, c :: cs => p == c && startsWith ps cs

/-- Character-list matcher: does the pattern occur anywhere in the list?
This is `String::indexOf(pat) >= 0` of the Arduino `String` class. -/
def hasSub (pat : List Char) : List Char → Bool
  | [] => startsWith pat []
  | c :: cs => startsWith pat (c :: cs) || hasSub pat cs

/-- `s.indexOf(pat) >= 0` on Arduino strings. -/
def containsSub (s pat : String) : Bool :=
  hasSub pat.toList s.toList

/-- Outcome of one remote call: success, or failure with `errorReason()` text. -/
inductive NetResult where
  | ok : NetResult
  | fail : String → NetResult
deriving Repr, DecidableEq

/-- The Synced-state body of one `firebaseTask` cycle, as far as the session
flag is concerned: a failed push whose error text contains "auth" or "token"
clears `firebaseReady`; a successful push leaves it set; the config pull only
logs on failure and never touches `firebaseReady`. Returns the value of
`firebaseReady` after the cycle. -/
def syncCycle (push pull : NetResult) : Bool :=
  let readyAfterPush :=
    match push with
    | NetResult.ok => true
    | NetResult.fail err =>
        if containsSub err "auth" || containsSub err "token" then false else true
  match pull with
  | NetResult.ok => readyAfterPush
  | NetResult.fail _ => readyAfterPush

/-- Modulus of the 32-bit unsigned `millis()` arithmetic. -/
def u32Mod : Nat := 4294967296

/-- `millis() - lastAuthAttempt` as computed in 32-bit unsigned arithmetic. -/
def elapsedMs (nowMs lastMs : Nat) : Nat :=
  (nowMs % u32Mod + u32Mod - lastMs % u32Mod) % u32Mod

/-- CloudSync session data: `firebaseReady` and `lastAuthAttempt`. -/
structure AuthSession where
  firebaseReady : Bool
  lastAuthAttempt : Nat
deriving Repr, DecidableEq

/-- The `AUTHENTICATION` block of `firebaseTask` for the Disconnected state
(`!firebaseReady`): a handshake is attempted only when more than 30000 ms
(`authRetryInterval`) have elapsed since `lastAuthAttempt`; on an attempt,
`lastAuthAttempt` is set to the current time and `firebaseReady` becomes true
iff the handshake succeeds. Returns the new session and whether a network
handshake call was made. -/
def disconnectedStep (s : AuthSession) (nowMs : Nat) (handshakeOk : Bool) :
    AuthSession × Bool :=
  if elapsedMs nowMs s.lastAuthAttempt > 30000 then
    ({ firebaseReady := if handshakeOk then true else s.firebaseReady,
       lastAuthAttempt := nowMs }, true)
  else
    (s, false)

/-! Lemmas about the moisture mapping. -/

theorem clamp_eq_specClamp (x : ℚ) :
    (if (if x > 100 then (100 : ℚ) else x) < 0 then 0
     else if x > 100 then (100 : ℚ) else x) = specClamp x 0 100 := by
  unfold specClamp
  split_ifs <;> simp [max_def, min_def] <;> split_ifs <;> linarith

/-- On a positive raw value with distinct calibration points, `mapMoisture` is
exactly the spec's clamped linear map. -/
theorem mapMoisture_pos (cfg : Config) (raw : Int) (h : 0 < raw)
    (hne : cfg.adc_wet ≠ cfg.adc_dry) :
    mapMoisture cfg raw =
      specClamp (((raw : ℚ) - (cfg.adc_dry : ℚ)) * 100 /
        ((cfg.adc_wet : ℚ) - (cfg.adc_dry : ℚ))) 0 100 := by
  have hne' : ¬(cfg.adc_dry = cfg.adc_wet) := fun hh => hne hh.symm
  have hraw : ¬(raw ≤ 0) := not_le.mpr h
  rw [← clamp_eq_specClamp]
  simp only [mapMoisture, hraw, hne', if_false, ite_false]
  push_cast
  rfl

theorem specClamp_bounds (x : ℚ) : 0 ≤ specClamp x 0 100 ∧ specClamp x 0 100 ≤ 100 :=
  ⟨le_max_left _ _, max_le (by norm_num) (min_le_left _ _)⟩

theorem specClamp_mono {x y : ℚ} (h : x ≤ y) : specClamp x 0 100 ≤ specClamp y 0 100 :=
  max_le_max (le_refl 0) (min_le_min (le_refl 100) h)

theorem linmap_mono (cfg : Config) {r1 r2 : Int} (hdw : cfg.adc_dry < cfg.adc_wet)
    (h12 : r1 ≤ r2) :
    ((r1 : ℚ) - (cfg.adc_dry : ℚ)) * 100 / ((cfg.adc_wet : ℚ) - (cfg.adc_dry : ℚ)) ≤
      ((r2 : ℚ) - (cfg.adc_dry : ℚ)) * 100 / ((cfg.adc_wet : ℚ) - (cfg.adc_dry : ℚ)) := by
  have hpos : (0 : ℚ) < (cfg.adc_wet : ℚ) - (cfg.adc_dry : ℚ) := by
    rw [sub_pos]
    exact_mod_cast hdw
  refine (div_le_div_iff_of_pos_right hpos).mpr ?_
  have hsub : (r1 : ℚ) - (cfg.adc_dry : ℚ) ≤ (r2 : ℚ) - (cfg.adc_dry : ℚ) := by
    have : (r1 : ℚ) ≤ (r2 : ℚ) := by exact_mod_cast h12
    linarith
  exact mul_le_mul_of_nonneg_right hsub (by norm_num)

theorem linmap_anti (cfg : Config) {r1 r2 : Int} (hwd : cfg.adc_wet < cfg.adc_dry)
    (h12 : r1 ≤ r2) :
    ((r2 : ℚ) - (cfg.adc_dry : ℚ)) * 100 / ((cfg.adc_wet : ℚ) - (cfg.adc_dry : ℚ)) ≤
      ((r1 : ℚ) - (cfg.adc_dry : ℚ)) * 100 / ((cfg.adc_wet : ℚ) - (cfg.adc_dry : ℚ)) := by
  have hneg : (cfg.adc_wet : ℚ) - (cfg.adc_dry : ℚ) < 0 := by
    rw [sub_neg]
    exact_mod_cast hwd
  refine (div_le_div_right_of_neg hneg).mpr ?_
  have hsub : (r1 : ℚ) - (cfg.adc_dry : ℚ) ≤ (r2 : ℚ) - (cfg.adc_dry : ℚ) := by
    have : (r1 : ℚ) ≤ (r2 : ℚ) := by exact_mod_cast h12
    linarith
  exact mul_le_mul_of_nonneg_right hsub (by norm_num)

/-! Projection lemmas for one control cycle. -/

theorem controlStep_fan (cfg : Config) (s : State) :
    (controlStep cfg s).fan_on = (if s.temp > cfg.temp_high then true else false) := by
  simp only [controlStep]
  split_ifs <;> simp_all

theorem controlStep_lights (cfg : Config) (s : State) :
    (controlStep cfg s).lights_on =
      (if s.temp > cfg.temp_high then false
       else if s.temp < cfg.temp_low then true else false) := by
  simp only [controlStep]
  split_ifs <;> simp_all

theorem controlStep_humidifier (cfg : Config) (s : State) :
    (controlStep cfg s).humidifier_is_on =
      (if s.humidity < cfg.hum_low then true
       else if s.humidity > cfg.hum_high then false else s.humidifier_is_on) := by
  simp only [controlStep]
  split_ifs <;> simp_all

theorem controlStep_pump (cfg : Config) (s : State) :
    (controlStep cfg s).pump_on =
      (if s.moisture < cfg.moisture_dry then true
       else if s.moisture > cfg.moisture_target then false else s.pump_on) := by
  simp only [controlStep]
  split_ifs <;> simp_all

/-- The temperature section always writes both `fan_on` and `lights_on`, and in
every branch at most one of them is true. -/
theorem controlStep_mutex (cfg : Config) (s : State) :
    ((controlStep cfg s).fan_on && (controlStep cfg s).lights_on) = false := by
  rw [controlStep_fan, controlStep_lights]
  split_ifs <;> rfl

theorem runCycles_mutex_aux :
    ∀ (inputs : List (Config × Readings)) (s : State),
      (s.fan_on && s.lights_on) = false →
      ((runCycles inputs s).fan_on && (runCycles inputs s).lights_on) = false
  | [], _, h => h
  | i :: is, s, _ =>
      runCycles_mutex_aux is (cycle i.1 i.2 s) (controlStep_mutex i.1 (setReadings s i.2))

/-- C1: Temperature control is a reset-to-off band: above `temp_high` the fan is
on and the lights off, below `temp_low` the lights are on and the fan off, and
inside `[temp_low, temp_high]` both are off, regardless of the prior actuator
state. -/
theorem controlStep_temperature_band (cfg : Config) (s : State)
    (hvalid : cfg.temp_low < cfg.temp_high) :
    (cfg.temp_high < s.temp →
      (controlStep cfg s).fan_on = true ∧ (controlStep cfg s).lights_on = false) ∧
    (s.temp < cfg.temp_low →
      (controlStep cfg s).lights_on = true ∧ (controlStep cfg s).fan_on = false) ∧
    (cfg.temp_low ≤ s.temp → s.temp ≤ cfg.temp_high →
      (controlStep cfg s).fan_on = false ∧ (controlStep cfg s).lights_on = false) := by
  rw [controlStep_fan, controlStep_lights]
  refine ⟨fun h => ?_, fun h => ?_, fun h1 h2 => ?_⟩ <;>
    split_ifs <;> simp_all <;> linarith

/-- C1 witness: at `temp = 23` above the default band the fan turns on and the
lights off; applied from the general band theorem. -/
theorem controlStep_temperature_band_witness :
    (controlStep defaultConfig { bootState with temp := 23 }).fan_on = true ∧
    (controlStep defaultConfig { bootState with temp := 23 }).lights_on = false :=
  (controlStep_temperature_band defaultConfig { bootState with temp := 23 }
    (by decide)).1 (by decide)

/-- C2: Starting from the boot state (all actuators off), after every sequence
of control cycles with any per-cycle thresholds and sensor readings, `fan_on`
and `lights_on` are never both true. -/
theorem runCycles_fan_lights_mutex (inputs : List (Config × Readings)) :
    ((runCycles inputs bootState).fan_on && (runCycles inputs bootState).lights_on) = false :=
  runCycles_mutex_aux inputs bootState rfl

/-- C3: The control task evaluates the fault sentinel `-999` against the
thresholds like a real reading: with the default configuration, faulted
readings on all three channels turn the heat lamp, the humidifier and the pump
on, because `-999` is below each low threshold. -/
theorem sentinel_readings_actuate :
    (controlStep defaultConfig (setReadings bootState ⟨-999, -999, -999⟩)).lights_on = true ∧
    (controlStep defaultConfig (setReadings bootState ⟨-999, -999, -999⟩)).humidifier_is_on = true ∧
    (controlStep defaultConfig (setReadings bootState ⟨-999, -999, -999⟩)).pump_on = true := by
  decide

/-- C4: Humidity and moisture are hold-in-band: strictly inside the band the
actuator keeps its previous value; below the low bound it turns on; above the
high bound it turns off. -/
theorem controlStep_hold_in_band (cfg : Config) (s : State)
    (hhum : cfg.hum_low < cfg.hum_high)
    (hmoist : cfg.moisture_dry < cfg.moisture_target) :
    (cfg.hum_low < s.humidity → s.humidity < cfg.hum_high →
      (controlStep cfg s).humidifier_is_on = s.humidifier_is_on) ∧
    (s.humidity < cfg.hum_low → (controlStep cfg s).humidifier_is_on = true) ∧
    (cfg.hum_high < s.humidity → (controlStep cfg s).humidifier_is_on = false) ∧
    (cfg.moisture_dry < s.moisture → s.moisture < cfg.moisture_target →
      (controlStep cfg s).pump_on = s.pump_on) ∧
    (s.moisture < cfg.moisture_dry → (controlStep cfg s).pump_on = true) ∧
    (cfg.moisture_target < s.moisture → (controlStep cfg s).pump_on = false) := by
  rw [controlStep_humidifier, controlStep_pump]
  refine ⟨fun ha hb => ?_, fun h => ?_, fun h => ?_,
          fun ha hb => ?_, fun h => ?_, fun h => ?_⟩ <;>
    split_ifs <;> first | rfl | linarith

/-- C4 witness: humidity 47 and moisture 50 strictly inside the default bands
keep the previous humidifier and pump values. -/
theorem controlStep_hold_in_band_witness :
    (controlStep defaultConfig
      { bootState with humidity := 47, moisture := 50,
                       humidifier_is_on := true, pump_on := true }).humidifier_is_on = true ∧
    (controlStep defaultConfig
      { bootState with humidity := 47, moisture := 50,
                       humidifier_is_on := true, pump_on := true }).pump_on = true :=
  ⟨(controlStep_hold_in_band defaultConfig
      { bootState with humidity := 47, moisture := 50,
                       humidifier_is_on := true, pump_on := true }
      (by decide) (by decide)).1 (by decide) (by decide),
   (controlStep_hold_in_band defaultConfig
      { bootState with humidity := 47, moisture := 50,
                       humidifier_is_on := true, pump_on := true }
      (by decide) (by decide)).2.2.2.1 (by decide) (by decide)⟩

/-- C5: The sensor task's moisture value is `mapMoisture` of the truncated
average of its 10 ADC samples: `-999` when the average is not positive,
otherwise (with distinct calibration points) the clamp of
`(raw - adc_dry) * 100 / (adc_wet - adc_dry)` to `[0, 100]`. -/
theorem sensorMoisture_avg_clamp (cfg : Config) (samples : List Int)
    (_hlen : samples.length = 10) (hne : cfg.adc_wet ≠ cfg.adc_dry) :
    sensorMoisture cfg samples =
      if avgRaw samples ≤ 0 then -999
      else specClamp (((avgRaw samples : ℚ) - (cfg.adc_dry : ℚ)) * 100 /
        ((cfg.adc_wet : ℚ) - (cfg.adc_dry : ℚ))) 0 100 := by
  unfold sensorMoisture
  by_cases hraw : avgRaw samples ≤ 0
  · rw [if_pos hraw]
    unfold mapMoisture
    rw [if_pos hraw]
  · rw [if_neg hraw]
    exact mapMoisture_pos cfg (avgRaw samples) (not_le.mp hraw) hne

/-- C5 witness: ten concrete ADC samples averaging 3000 under the default
calibration give the clamped linear-map value. -/
theorem sensorMoisture_avg_clamp_witness :
    ([3000, 3010, 2990, 3000, 3000, 3000, 3000, 3000, 3000, 3000] : List Int).length = 10 ∧
    defaultConfig.adc_wet ≠ defaultConfig.adc_dry ∧
    sensorMoisture defaultConfig [3000, 3010, 2990, 3000, 3000, 3000, 3000, 3000, 3000, 3000] =
      if avgRaw [3000, 3010, 2990, 3000, 3000, 3000, 3000, 3000, 3000, 3000] ≤ 0 then -999
      else specClamp
        (((avgRaw [3000, 3010, 2990, 3000, 3000, 3000, 3000, 3000, 3000, 3000] : ℚ) -
            (defaultConfig.adc_dry : ℚ)) * 100 /
          ((defaultConfig.adc_wet : ℚ) - (defaultConfig.adc_dry : ℚ))) 0 100 :=
  ⟨by decide, by decide,
   sensorMoisture_avg_clamp defaultConfig
     [3000, 3010, 2990, 3000, 3000, 3000, 3000, 3000, 3000, 3000] (by decide) (by decide)⟩

/-- C6 counterexample: at raw value `0` (a possible averaged ADC reading) the
mapping under the default calibration returns the sentinel `-999`, which lies
outside `[0, 100]`, so the mapping is not clamped to `[0, 100]` for every raw
input. -/
theorem mapMoisture_not_total_range :
    ¬(0 ≤ mapMoisture defaultConfig 0 ∧ mapMoisture defaultConfig 0 ≤ 100) := by
  decide

/-- C6 amended: for distinct calibration points and positive raw values, the
mapping lies in `[0, 100]` and is monotone in the raw value — non-decreasing
when `adc_dry < adc_wet` and non-increasing when `adc_wet < adc_dry`. -/
theorem mapMoisture_monotone_clamped (cfg : Config) (r1 r2 : Int)
    (hne : cfg.adc_wet ≠ cfg.adc_dry) (h1 : 0 < r1) (h12 : r1 ≤ r2) :
    (0 ≤ mapMoisture cfg r1 ∧ mapMoisture cfg r1 ≤ 100) ∧
    (cfg.adc_dry < cfg.adc_wet → mapMoisture cfg r1 ≤ mapMoisture cfg r2) ∧
    (cfg.adc_wet < cfg.adc_dry → mapMoisture cfg r2 ≤ mapMoisture cfg r1) := by
  have h2 : 0 < r2 := lt_of_lt_of_le h1 h12
  rw [mapMoisture_pos cfg r1 h1 hne, mapMoisture_pos cfg r2 h2 hne]
  exact ⟨specClamp_bounds _,
    fun hdw => specClamp_mono (linmap_mono cfg hdw h12),
    fun hwd => specClamp_mono (linmap_anti cfg hwd h12)⟩

/-- C6 witness: default calibration, raw values 2000 ≤ 3000: both results are
in `[0, 100]` and the mapping is non-increasing (`adc_wet < adc_dry`). -/
theorem mapMoisture_monotone_clamped_witness :
    (0 ≤ mapMoisture defaultConfig 2000 ∧ mapMoisture defaultConfig 2000 ≤ 100) ∧
    mapMoisture defaultConfig 3000 ≤ mapMoisture defaultConfig 2000 :=
  ⟨(mapMoisture_monotone_clamped defaultConfig 2000 3000 (by decide) (by decide) (by decide)).1,
   (mapMoisture_monotone_clamped defaultConfig 2000 3000
     (by decide) (by decide) (by decide)).2.2 (by decide)⟩

/-- C10 counterexample: the calibration `adc_wet = 0 < adc_dry = 4095`
satisfies `adc_wet < adc_dry`, yet `mapMoisture adc_wet` is the sentinel
`-999`, not `100`, because the raw value is not positive. -/
theorem mapMoisture_wet_endpoint_fails :
    ({ defaultConfig with adc_wet := 0 } : Config).adc_wet <
      ({ defaultConfig with adc_wet := 0 } : Config).adc_dry ∧
    ¬(mapMoisture { defaultConfig with adc_wet := 0 }
        ({ defaultConfig with adc_wet := 0 } : Config).adc_wet = 100) := by
  decide

/-- C10 amended: for any calibration with `0 < adc_wet < adc_dry` the mapping
is antitone on positive raw values (higher raw means drier soil), with
`mapMoisture adc_dry = 0` and `mapMoisture adc_wet = 100`. -/
theorem mapMoisture_antitone_endpoints (cfg : Config) (r1 r2 : Int)
    (hwd : cfg.adc_wet < cfg.adc_dry) (hw : 0 < cfg.adc_wet)
    (h1 : 0 < r1) (h12 : r1 < r2) :
    mapMoisture cfg r2 ≤ mapMoisture cfg r1 ∧
    mapMoisture cfg cfg.adc_dry = 0 ∧
    mapMoisture cfg cfg.adc_wet = 100 := by
  have hne : cfg.adc_wet ≠ cfg.adc_dry := ne_of_lt hwd
  have hd : 0 < cfg.adc_dry := lt_trans hw hwd
  have hne0 : (cfg.adc_wet : ℚ) - (cfg.adc_dry : ℚ) ≠ 0 := by
    rw [sub_ne_zero]
    exact_mod_cast hne
  refine ⟨?_, ?_, ?_⟩
  · rw [mapMoisture_pos cfg r1 h1 hne,
      mapMoisture_pos cfg r2 (lt_trans h1 h12) hne]
    exact specClamp_mono (linmap_anti cfg hwd h12.le)
  · rw [mapMoisture_pos cfg cfg.adc_dry hd hne, sub_self, zero_mul, zero_div]
    norm_num [specClamp]
  · rw [mapMoisture_pos cfg cfg.adc_wet hw hne, mul_comm, mul_div_assoc,
      div_self hne0, mul_one]
    norm_num [specClamp]

/-- C10 witness: default calibration (`0 < 1500 < 4095`), raw values
2000 < 3000: the mapping is antitone and hits the endpoint values. -/
theorem mapMoisture_antitone_endpoints_witness :
    mapMoisture defaultConfig 3000 ≤ mapMoisture defaultConfig 2000 ∧
    mapMoisture defaultConfig defaultConfig.adc_dry = 0 ∧
    mapMoisture defaultConfig defaultConfig.adc_wet = 100 :=
  mapMoisture_antitone_endpoints defaultConfig 2000 3000
    (by decide) (by decide) (by decide) (by decide)

/-- C7 counterexample: a delta that provides only `hum_low = 55` (different
from the current 45) leaves `hum_low` unchanged and triggers zero saves — the
pull loop of `firebaseTask` only consults `temp_high` and `temp_low`. -/
theorem applyRemoteDelta_ignores_hum_low :
    ¬((applyRemoteDelta defaultConfig ⟨none, none, some 55, none, none, none⟩).1.hum_low = 55 ∧
      (applyRemoteDelta defaultConfig ⟨none, none, some 55, none, none, none⟩).2 = 1) := by
  decide

/-- C7 amended: applying a remote delta updates only `temp_high` and
`temp_low`, each only when the provided value differs from the current one;
the other four fields are never touched; exactly one save happens when
`temp_high` or `temp_low` changed and zero saves otherwise — in particular
zero when the delta is identical to the current configuration. -/
theorem applyRemoteDelta_spec (cfg : Config) (d : RemoteDelta) :
    (applyRemoteDelta cfg d).1.temp_high = d.temp_high.getD cfg.temp_high ∧
    (applyRemoteDelta cfg d).1.temp_low = d.temp_low.getD cfg.temp_low ∧
    (applyRemoteDelta cfg d).1.hum_low = cfg.hum_low ∧
    (applyRemoteDelta cfg d).1.hum_high = cfg.hum_high ∧
    (applyRemoteDelta cfg d).1.moisture_dry = cfg.moisture_dry ∧
    (applyRemoteDelta cfg d).1.moisture_target = cfg.moisture_target ∧
    (applyRemoteDelta cfg d).2 =
      (if d.temp_high.getD cfg.temp_high ≠ cfg.temp_high ∨
          d.temp_low.getD cfg.temp_low ≠ cfg.temp_low then 1 else 0) := by
  rcases d with ⟨th, tl, hl, hh, md, mt⟩
  rcases th with _ | vth <;> rcases tl with _ | vtl <;>
    simp [applyRemoteDelta, Option.getD] <;> split_ifs <;> simp_all

/-- C8: A failed push whose error text contains "auth" or "token" clears
`firebaseReady` (back to Disconnected); a failed push without such text leaves
the session synced; and the config pull's outcome never changes the session
flag. -/
theorem syncCycle_auth_classification (err : String) (pull : NetResult) :
    ((containsSub err "auth" || containsSub err "token") = true →
      syncCycle (NetResult.fail err) pull = false) ∧
    ((containsSub err "auth" || containsSub err "token") = false →
      syncCycle (NetResult.fail err) pull = true) ∧
    (∀ push : NetResult, syncCycle push pull = syncCycle push NetResult.ok) := by
  refine ⟨fun h => ?_, fun h => ?_, fun push => ?_⟩
  · cases pull <;> simp [syncCycle, h]
  · cases pull <;> simp [syncCycle, h]
  · cases push <;> cases pull <;> rfl

/-- C8 witness: the error text "token is expired" is auth-classified, so the
session drops to Disconnected even though the concurrent config pull also
failed for a non-auth reason. -/
theorem syncCycle_auth_classification_witness :
    (containsSub "token is expired" "auth" || containsSub "token is expired" "token") = true ∧
    syncCycle (NetResult.fail "token is expired") (NetResult.fail "connection lost") = false :=
  ⟨by decide,
   (syncCycle_auth_classification "token is expired" (NetResult.fail "connection lost")).1
     (by decide)⟩

theorem elapsedMs_of_le (t1 t2 : Nat) (h12 : t1 ≤ t2) (hlt : t2 < u32Mod) :
    elapsedMs t2 t1 = t2 - t1 := by
  unfold elapsedMs u32Mod at *
  omega

/-- C9: After a handshake attempt at `t1` (so `lastAuthAttempt = t1`), a
second attempt issued at `t2` less than 30 s later is skipped — no network
call, session unchanged — while an attempt issued more than 30 s later is
performed and stamps `lastAuthAttempt = t2`. -/
theorem disconnectedStep_rate_limit (t1 t2 : Nat) (okH : Bool)
    (h12 : t1 ≤ t2) (hlt : t2 < u32Mod) :
    (t2 - t1 < 30000 →
      disconnectedStep ⟨false, t1⟩ t2 okH = (⟨false, t1⟩, false)) ∧
    (30000 < t2 - t1 →
      (disconnectedStep ⟨false, t1⟩ t2 okH).2 = true ∧
      (disconnectedStep ⟨false, t1⟩ t2 okH).1.lastAuthAttempt = t2) := by
  unfold disconnectedStep
  rw [elapsedMs_of_le t1 t2 h12 hlt]
  constructor
  · intro h
    rw [if_neg (by omega)]
  · intro h
    rw [if_pos h]
    exact ⟨rfl, rfl⟩

/-- C9 witness: with the previous attempt stamped at t = 0 ms, an attempt at
20000 ms is skipped and an attempt at 31000 ms is performed. -/
theorem disconnectedStep_rate_limit_witness :
    disconnectedStep ⟨false, 0⟩ 20000 true = (⟨false, 0⟩, false) ∧
    (disconnectedStep ⟨false, 0⟩ 31000 true).2 = true :=
  ⟨(disconnectedStep_rate_limit 0 20000 true (by decide) (by decide)).1 (by decide),
   ((disconnectedStep_rate_limit 0 31000 true (by decide) (by decide)).2 (by decide)).1⟩

end KGHS
